import Mathlib

/-!
Shallow embedding of `src/server.py` (an MCP tool server with an `echo` tool,
a `get_counts` backend proxy tool, and a hard-coded entry-point run
configuration), together with theorems settling the specification claims.

Conventions of the embedding:
* Python strings become `String`, Python ints become `Int`, lists become `List`.
* A Python value that may be `None` becomes an `Option`.
* Raising an exception becomes an `Except.error` (for functions that the code
  lets fail) or an explicit `fault` constructor of the request-context model
  (for the metadata handle, whose attribute access the code wraps in
  `try/except`).
* The backend HTTP call is a parameter `backend : HttpRequest → HttpOutcome`;
  `get_counts` additionally returns the list of HTTP requests it issued, so
  that "no network call is attempted" and "exactly one POST" are statable.
-/

namespace Server

/-- Python `a or b` on two optional strings: `a` when truthy
(present and non-empty), otherwise `b`.  Models
`request.headers.get('authorization') or request.headers.get('Authorization')`. -/
def pyOrStr (a b : Option String) : Option String :=
  match a with
  | some s => if s = "" then b else some s
  | none => b

/-- `headers.get(k)`: first binding of key `k` in the header mapping
(headers are modelled as an association list with distinct keys). -/
def headersGet (hs : List (String × String)) (k : String) : Option String :=
  (hs.find? (fun p => p.1 == k)).map (fun p => p.2)

/-- Python `s.startswith(pre)` (code-point based). -/
def pyStartsWith (s pre : String) : Bool :=
  pre.data.isPrefixOf s.data

/-- Python slice `s[n:]` (code-point based). -/
def pyDrop (s : String) (n : Nat) : String :=
  ⟨s.data.drop n⟩

/-- Python slice `s[:n]` (code-point based). -/
def pyTake (s : String) (n : Nat) : String :=
  ⟨s.data.take n⟩

/-- Python `str.join`: `sep.join(xs)`. -/
def pyJoin (sep : String) : List String → String
  | [] => ""
  | [x] => x
  | x :: y :: xs => x ++ sep ++ pyJoin sep (y :: xs)

/-- The request object reachable from the context
(`ctx.request_context.request` when that access succeeds and is not `None`).
`hasHeaders` models `hasattr(request, 'headers')`; `typeName` models
`str(type(request))`. -/
structure Request where
  hasHeaders : Bool
  headers : List (String × String)
  typeName : String
deriving Repr, DecidableEq

/-- The request-metadata handle as the tools see it:
`ctx.request_context.request` either evaluates to a request object or `None`
(`ok`), or the attribute access raises an exception with message `msg`
(`fault`). -/
inductive RequestAccess where
  | ok (request : Option Request)
  | fault (msg : String)
deriving Repr, DecidableEq

/-- The `debug_info` dictionary built by `echo` (absent keys are `none`). -/
structure DebugInfo where
  request_available : Option Bool := none
  headers_available : Option Bool := none
  found_auth_header : Option Bool := none
  all_headers : Option (List (String × String)) := none
  request_type : Option String := none
  token_extracted : Option Bool := none
  non_bearer_format : Option Bool := none
  error : Option String := none
deriving Repr, DecidableEq

/-- The credential information `echo` extracts: the `auth_header` string it
ends up with (a real header value or one of the sentinel / error strings),
the optional `bearer_token`, and the debug trail. -/
structure AuthExtract where
  full_header : String
  bearer_token : Option String
  debug : DebugInfo
deriving Repr, DecidableEq

/-- Credential extraction as performed by `echo` (src/server.py lines 43-80):
read `ctx.request_context.request` inside `try/except`, look the
authorization header up under both spellings, replace a missing/empty header
by the sentinel `"No Authorization header found"`, strip a `"Bearer "` prefix
(case-sensitive, single space) to obtain the token, mark a present but
non-Bearer value with the marker string, and convert any fault into the
`"Error accessing headers: ..."` diagnostic. -/
def extractAuth (ra : RequestAccess) : AuthExtract :=
  match ra with
  | .fault e =>
      { full_header := "Error accessing headers: " ++ e
        bearer_token := none
        debug := { error := some e } }
  | .ok req =>
      let d0 : DebugInfo := { request_available := some req.isSome }
      let step1 : String × DebugInfo :=
        match req with
        | some r =>
          if r.hasHeaders then
            let d1 : DebugInfo := { d0 with headers_available := some true }
            match pyOrStr (headersGet r.headers "authorization")
                          (headersGet r.headers "Authorization") with
            | some a =>
              if a = "" then
                ("No Authorization header found", { d1 with all_headers := some r.headers })
              else
                (a, { d1 with found_auth_header := some true })
            | none =>
                ("No Authorization header found", { d1 with all_headers := some r.headers })
          else
            ("Request object has no headers attribute",
             { d0 with request_type := some r.typeName })
        | none =>
            ("Request object has no headers attribute",
             { d0 with request_type := some "None" })
      let auth_header := step1.1
      let d := step1.2
      if pyStartsWith auth_header "Bearer " then
        { full_header := auth_header
          bearer_token := some (pyDrop auth_header 7)
          debug := { d with token_extracted := some true } }
      else if auth_header ≠ "No Authorization header found" ∧
              auth_header ≠ "Request object has no headers attribute" then
        { full_header := auth_header
          bearer_token := some "Non-Bearer token format"
          debug := { d with non_bearer_format := some true } }
      else
        { full_header := auth_header, bearer_token := none, debug := d }

/-- `len(bearer_token) if bearer_token and bearer_token != "Non-Bearer token format" else 0`. -/
def tokenLength (bt : Option String) : Nat :=
  match bt with
  | some t => if t ≠ "" ∧ t ≠ "Non-Bearer token format" then t.length else 0
  | none => 0

/-- The `authorization_info` part of `echo`'s return value. -/
structure AuthorizationInfo where
  full_header : String
  bearer_token : Option String
  token_length : Nat
deriving Repr, DecidableEq

/-- `echo`'s success return value (the dictionary of src/server.py
lines 82-94; `request_info` is flattened into its two fields). -/
structure EchoOutput where
  echo_message : String
  authorization_info : AuthorizationInfo
  debug_info : DebugInfo
  repeat_count : Int
  original_message : String
deriving Repr, DecidableEq

/-- The `echo` tool (src/server.py lines 21-94).  A raised `ValueError`
becomes `Except.error` with the exception message. -/
def echo (ra : RequestAccess) (message : String) (rep : Int) :
    Except String EchoOutput :=
  if message = "" then
    .error "Message cannot be empty"
  else if rep < 1 ∨ rep > 10 then
    .error "Repeat must be an integer between 1 and 10"
  else
    let echo_response := pyJoin "\n" (List.replicate rep.toNat message)
    let a := extractAuth ra
    .ok
      { echo_message := "Echo (" ++ toString rep ++ "x): " ++ echo_response
        authorization_info :=
          { full_header := a.full_header
            bearer_token := a.bearer_token
            token_length := tokenLength a.bearer_token }
        debug_info := a.debug
        repeat_count := rep
        original_message := message }

/-- An abstract decoded JSON document (the value `response.json()` yields;
its internal structure is never inspected by the server). -/
structure JsonVal where
  raw : String
deriving Repr, DecidableEq

/-- The JSON payload of the backend POST (src/server.py lines 147-160);
field names carry the JSON keys `Type, View, ClusterID, WorkspaceID,
Namespace, Filters, FromTime, ToTime, LogType, Search, WorkloadType,
WorkloadName` in order. -/
structure Payload where
  type : Option String
  view : Option String
  cluster_id : List String
  workspace_id : Option Int
  «namespace» : List String
  filters : List String
  from_time : Option Int
  to_time : Option Int
  log_type : Option String
  search : Option String
  workload_type : List String
  workload_name : List String
deriving Repr, DecidableEq

/-- One outbound HTTP request as issued by `client.post` in `get_counts`:
URL, header mapping, JSON body, timeout. -/
structure HttpRequest where
  url : String
  headers : List (String × String)
  payload : Payload
  timeout : Nat
deriving Repr, DecidableEq

/-- What `await client.post(...)` produces, as `get_counts` observes it:
a response with a status code, raw body text and the result of decoding the
body as JSON (`Except.error` when `response.json()` raises); or a raised
`httpx.TimeoutException`; or a raised `httpx.RequestError` (lower-level
transport fault) with its message; or any other raised exception. -/
inductive HttpOutcome where
  | response (status : Nat) (text : String) (json : Except String JsonVal)
  | timeout
  | transportError (msg : String)
  | otherError (msg : String)
deriving Repr

/-- The arguments of `get_counts`, with the defaults of the Python
signature (src/server.py lines 97-110). -/
structure GCArgs where
  type : Option String := some "Kubearmor"
  view : Option String := some "List"
  cluster_id : Option (List String) := none
  workspace_id : Option Int := some 11
  «namespace» : Option (List String) := none
  filters : Option (List String) := none
  from_time : Option Int := some 1730399520
  to_time : Option Int := some 1751518034
  log_type : Option String := some "active"
  search : Option String := some ""
  workload_type : Option (List String) := none
  workload_name : Option (List String) := none
deriving Repr, DecidableEq

/-- Build the payload from the arguments; `x or []` maps both `None` and the
empty list to the empty list, which coincides with `Option.getD []`. -/
def mkPayload (a : GCArgs) : Payload :=
  { type := a.type
    view := a.view
    cluster_id := a.cluster_id.getD []
    workspace_id := a.workspace_id
    «namespace» := a.«namespace».getD []
    filters := a.filters.getD []
    from_time := a.from_time
    to_time := a.to_time
    log_type := a.log_type
    search := a.search
    workload_type := a.workload_type.getD []
    workload_name := a.workload_name.getD [] }

/-- The fixed browser-mimicking header set of the backend POST
(src/server.py lines 163-179), with the relayed bearer token. -/
def gcHeaders (bearer_token : String) : List (String × String) :=
  [("User-Agent", "Mozilla/5.0 (X11; Ubuntu; Linux x86_64; rv:139.0) Gecko/20100101 Firefox/139.0"),
   ("Accept", "*/*"),
   ("Accept-Language", "en-US,en;q=0.5"),
   ("Accept-Encoding", "gzip, deflate, br, zstd"),
   ("Referer", "https://app.dev.accuknox.com/"),
   ("Content-Type", "application/json"),
   ("Authorization", "Bearer " ++ bearer_token),
   ("X-Tenant-Id", "11"),
   ("Origin", "https://app.dev.accuknox.com"),
   ("Connection", "keep-alive"),
   ("Sec-Fetch-Dest", "empty"),
   ("Sec-Fetch-Mode", "cors"),
   ("Sec-Fetch-Site", "same-site"),
   ("Priority", "u=4"),
   ("TE", "trailers")]

/-- The fixed backend endpoint (src/server.py line 182). -/
def api_url : String := "https://cwpp.dev.accuknox.com/monitors/v1/alerts/events/count"

/-- `get_counts`'s return value: either the plain `{"error": ...}` dictionary
of the early-return / except paths, or the response dictionary of
src/server.py lines 194-201. -/
inductive GCResult where
  | errorResult (msg : String)
  | apiResult (status_code : Nat) (success : Bool) (data : Option JsonVal)
      (error : Option String) (request_payload : Payload) (token_used : Option String)
deriving Repr, DecidableEq

/-- Bearer-token extraction as performed by `get_counts`
(src/server.py lines 133-141): `Except.error` when the metadata access
raises, otherwise the optional token (which the code only sets from a
truthy header value with the `"Bearer "` prefix). -/
def bearerTokenGC (ra : RequestAccess) : Except String (Option String) :=
  match ra with
  | .fault e => .error e
  | .ok req =>
      match req with
      | some r =>
        if r.hasHeaders then
          match pyOrStr (headersGet r.headers "authorization")
                        (headersGet r.headers "Authorization") with
          | some a =>
            if a ≠ "" ∧ pyStartsWith a "Bearer " then .ok (some (pyDrop a 7)) else .ok none
          | none => .ok none
        else .ok none
      | none => .ok none

/-- The try/except block around the backend call
(src/server.py lines 184-208): translate the outcome of the single POST
into `get_counts`'s return dictionary.  `payload` and `t` are the already
prepared payload and bearer token, `req` the request that was issued. -/
def handleOutcome (payload : Payload) (t : String) (req : HttpRequest)
    (o : HttpOutcome) : GCResult × List HttpRequest :=
  match o with
  | .response status text json =>
      if status = 200 then
        match json with
        | .ok j =>
            (.apiResult status true (some j) none payload
               (some ("Bearer " ++ pyTake t 8 ++ "...")), [req])
        | .error e =>
            (.errorResult ("Unexpected error: " ++ e), [req])
      else
        (.apiResult status false none (some text) payload
           (some ("Bearer " ++ pyTake t 8 ++ "...")), [req])
  | .timeout =>
      (.errorResult "Request timeout - API took too long to respond", [req])
  | .transportError e =>
      (.errorResult ("Request failed: " ++ e), [req])
  | .otherError e =>
      (.errorResult ("Unexpected error: " ++ e), [req])

/-- The `get_counts` tool (src/server.py lines 96-208), with the backend
call abstracted as `backend`.  Returns the result together with the list of
HTTP requests issued during the invocation. -/
def get_counts (backend : HttpRequest → HttpOutcome) (ra : RequestAccess)
    (args : GCArgs) : GCResult × List HttpRequest :=
  match bearerTokenGC ra with
  | .error e => (.errorResult ("Failed to extract bearer token: " ++ e), [])
  | .ok tok =>
    match tok with
    | none => (.errorResult "No Bearer token found in request headers", [])
    | some t =>
      if t = "" then
        (.errorResult "No Bearer token found in request headers", [])
      else
        let payload := mkPayload args
        let req : HttpRequest :=
          { url := api_url, headers := gcHeaders t, payload := payload, timeout := 30 }
        handleOutcome payload t req (backend req)

/-- The argument record passed to `mcp.run(...)`. -/
structure RunConfig where
  transport : String
  host : String
  port : Nat
  log_level : String
deriving Repr, DecidableEq

/-- The run configuration of the `__main__` block
(src/server.py lines 213-220): it is hard-coded, no startup option is
consulted. -/
def mainRunConfig : RunConfig :=
  { transport := "http", host := "127.0.0.1", port := 8000, log_level := "info" }

/-- A metadata handle whose request object is present and exposes the header
mapping `hs` (the normal shape of an incoming HTTP request). -/
def mkCtx (hs : List (String × String)) : RequestAccess :=
  .ok (some { hasHeaders := true, headers := hs, typeName := "Request" })

/-- Specification-side reading of the echoed payload: `n` copies of `m`
joined by single newline characters, i.e. `n - 1` newlines and nothing
else.  Compared against the code-side `pyJoin` of a replicated list. -/
def copiesJoined (m : String) : Nat → String
  | 0 => ""
  | 1 => m
  | n + 2 => m ++ "\n" ++ copiesJoined m (n + 1)

theorem pyJoin_replicate (m : String) (n : Nat) :
    pyJoin "\n" (List.replicate n m) = copiesJoined m n := by
  induction n with
  | zero => rfl
  | succ k ih =>
    cases k with
    | zero => rfl
    | succ j =>
      rw [List.replicate_succ, List.replicate_succ]
      show m ++ "\n" ++ pyJoin "\n" (m :: List.replicate j m) = copiesJoined m (j + 2)
      rw [← List.replicate_succ, ih]
      rfl

/-- C4: for every non-empty message `m` and every integer `r` with
`1 ≤ r ≤ 10`, `echo(m, r)` succeeds and its echoed payload is exactly `r`
copies of `m` joined by newline characters (`r - 1` newlines, nothing
else), prefixed by the `"Echo (rx): "` banner. -/
theorem echo_repeat_joined (ra : RequestAccess) (m : String) (r : Int)
    (hm : m ≠ "") (h1 : 1 ≤ r) (h10 : r ≤ 10) :
    ∃ out, echo ra m r = .ok out ∧
      out.echo_message = "Echo (" ++ toString r ++ "x): " ++ copiesJoined m r.toNat ∧
      out.original_message = m ∧ out.repeat_count = r := by
  unfold echo
  rw [if_neg hm, if_neg (by omega : ¬(r < 1 ∨ r > 10))]
  exact ⟨_, rfl, by rw [pyJoin_replicate], rfl, rfl⟩

theorem echo_repeat_joined_witness :
    ∃ out, echo (mkCtx []) "x" 3 = .ok out ∧
      out.echo_message = "Echo (" ++ toString (3 : Int) ++ "x): " ++ copiesJoined "x" (Int.toNat 3) ∧
      out.original_message = "x" ∧ out.repeat_count = 3 :=
  echo_repeat_joined (mkCtx []) "x" 3 (by decide) (by decide) (by decide)

/-- C5: `echo` fails exactly when its arguments are invalid: it succeeds
if and only if the message is non-empty and the repeat count lies in the
inclusive range 1–10. -/
theorem echo_ok_iff_valid (ra : RequestAccess) (m : String) (r : Int) :
    (∃ out, echo ra m r = Except.ok out) ↔ (m ≠ "" ∧ 1 ≤ r ∧ r ≤ 10) := by
  unfold echo
  split_ifs with h1 h2
  · constructor
    · rintro ⟨out, h⟩; cases h
    · rintro ⟨hm, -⟩; exact absurd h1 hm
  · constructor
    · rintro ⟨out, h⟩; cases h
    · rintro ⟨-, hr1, hr10⟩; omega
  · constructor
    · intro _; exact ⟨h1, by omega⟩
    · intro _; exact ⟨_, rfl⟩

/-- C10: `echo` validates the message before the repeat count: for every
repeat value `r`, including out-of-range ones, `echo("", r)` fails with the
empty-message error, never with the repeat-range error. -/
theorem echo_empty_message_first (r : Int) (ra : RequestAccess) :
    echo ra "" r = .error "Message cannot be empty" := by
  unfold echo
  rw [if_pos rfl]

/-- C3: the credential extractor returns token `"abc123"` for the header
value `"Bearer abc123"` (the value after the case-sensitive single-space
prefix); with no authorization header it returns no token and the
absence diagnostic; for the non-Bearer value `"Basic xyz"` it returns the
present-but-non-bearer marker with a reported token length of zero. -/
theorem credential_extractor_cases :
    (extractAuth (mkCtx [("authorization", "Bearer abc123")])).bearer_token
        = some "abc123" ∧
    ((extractAuth (mkCtx [("content-type", "application/json")])).bearer_token = none ∧
     (extractAuth (mkCtx [("content-type", "application/json")])).full_header
        = "No Authorization header found") ∧
    ((extractAuth (mkCtx [("authorization", "Basic xyz")])).bearer_token
        = some "Non-Bearer token format" ∧
     (extractAuth (mkCtx [("authorization", "Basic xyz")])).debug.non_bearer_format
        = some true ∧
     tokenLength (extractAuth (mkCtx [("authorization", "Basic xyz")])).bearer_token = 0) := by
  decide

/-- C7: credential extraction never propagates an internal fault: a
metadata handle whose attribute access raises with message `e` yields, in
`echo`'s extractor, a credential record with no token and the
`"Error accessing headers: ..."` diagnostic, and in `get_counts` an error
result (with no backend request issued) carrying the fault as a
diagnostic string. -/
theorem extraction_fault_contained (e : String)
    (backend : HttpRequest → HttpOutcome) (args : GCArgs) :
    extractAuth (.fault e)
      = { full_header := "Error accessing headers: " ++ e
          bearer_token := none
          debug := { error := some e } } ∧
    get_counts backend (.fault e) args
      = (.errorResult ("Failed to extract bearer token: " ++ e), []) :=
  ⟨rfl, rfl⟩

theorem get_counts_token_path (backend : HttpRequest → HttpOutcome)
    (ra : RequestAccess) (args : GCArgs) (t : String)
    (hb : bearerTokenGC ra = .ok (some t)) (ht : t ≠ "") :
    get_counts backend ra args
      = handleOutcome (mkPayload args) t
          { url := api_url, headers := gcHeaders t, payload := mkPayload args, timeout := 30 }
          (backend { url := api_url, headers := gcHeaders t,
                     payload := mkPayload args, timeout := 30 }) := by
  unfold get_counts
  rw [hb]
  dsimp only
  rw [if_neg ht]

theorem handleOutcome_trace (p : Payload) (t : String) (req : HttpRequest)
    (o : HttpOutcome) : (handleOutcome p t req o).2 = [req] := by
  cases o with
  | response status text json =>
      simp only [handleOutcome]
      split_ifs
      · cases json <;> rfl
      · rfl
  | timeout => rfl
  | transportError e => rfl
  | otherError e => rfl

/-- C1: invoked with metadata whose headers contain no authorization
header, `get_counts` returns the no-credential error result and the
backend is never called (the list of issued requests is empty), for every
backend. -/
theorem get_counts_no_auth_header_no_call (backend : HttpRequest → HttpOutcome)
    (hs : List (String × String)) (args : GCArgs)
    (h1 : headersGet hs "authorization" = none)
    (h2 : headersGet hs "Authorization" = none) :
    get_counts backend (mkCtx hs) args
      = (.errorResult "No Bearer token found in request headers", []) := by
  unfold get_counts bearerTokenGC mkCtx
  dsimp only
  rw [h1, h2]
  rfl

theorem get_counts_no_auth_header_no_call_witness :
    get_counts (fun _ => HttpOutcome.timeout)
        (mkCtx [("content-type", "application/json")]) {}
      = (.errorResult "No Bearer token found in request headers", []) :=
  get_counts_no_auth_header_no_call _ _ _ (by rfl) (by rfl)

/-- C2: with a bearer token extracted, a backend response of status 200
yields the decoded JSON body as data; any other status yields a result
whose error text equals the raw response body; a timeout yields the
timeout error result; a lower-level transport fault yields the
request-failed error result carrying the underlying message. -/
theorem backend_result_translation (ra : RequestAccess) (args : GCArgs)
    (t : String) (hb : bearerTokenGC ra = .ok (some t)) (ht : t ≠ "") :
    (∀ (j : JsonVal) (text : String),
        (get_counts (fun _ => .response 200 text (.ok j)) ra args).1
          = .apiResult 200 true (some j) none (mkPayload args)
              (some ("Bearer " ++ pyTake t 8 ++ "..."))) ∧
    (∀ (status : Nat) (text : String) (json : Except String JsonVal),
        status ≠ 200 →
        (get_counts (fun _ => .response status text json) ra args).1
          = .apiResult status false none (some text) (mkPayload args)
              (some ("Bearer " ++ pyTake t 8 ++ "..."))) ∧
    ((get_counts (fun _ => .timeout) ra args).1
        = .errorResult "Request timeout - API took too long to respond") ∧
    (∀ e : String, (get_counts (fun _ => .transportError e) ra args).1
        = .errorResult ("Request failed: " ++ e)) := by
  refine ⟨fun j text => ?_, fun status text json hst => ?_, ?_, fun e => ?_⟩
  · rw [get_counts_token_path _ ra args t hb ht]
    rfl
  · rw [get_counts_token_path _ ra args t hb ht]
    simp only [handleOutcome]
    rw [if_neg hst]
  · rw [get_counts_token_path _ ra args t hb ht]
    rfl
  · rw [get_counts_token_path _ ra args t hb ht]
    rfl

theorem backend_result_translation_witness :
    (get_counts (fun _ => .response 500 "boom" (.error "not json"))
        (mkCtx [("authorization", "Bearer abc123")]) {}).1
      = .apiResult 500 false none (some "boom") (mkPayload {})
          (some ("Bearer " ++ pyTake "abc123" 8 ++ "...")) :=
  (backend_result_translation (mkCtx [("authorization", "Bearer abc123")]) {}
      "abc123" (by rfl) (by decide)).2.1 500 "boom" (.error "not json") (by decide)

/-- C6: with a bearer token `t` extracted, `get_counts` issues exactly one
POST, to the fixed endpoint with the fixed browser-mimicking header set
and timeout 30, and that request's Authorization header is
`"Bearer "` followed by the caller's token relayed verbatim. -/
theorem get_counts_single_post (backend : HttpRequest → HttpOutcome)
    (ra : RequestAccess) (args : GCArgs) (t : String)
    (hb : bearerTokenGC ra = .ok (some t)) (ht : t ≠ "") :
    (get_counts backend ra args).2
      = [{ url := api_url, headers := gcHeaders t,
           payload := mkPayload args, timeout := 30 }] ∧
    headersGet (gcHeaders t) "Authorization" = some ("Bearer " ++ t) := by
  constructor
  · rw [get_counts_token_path backend ra args t hb ht]
    exact handleOutcome_trace _ _ _ _
  · rfl

theorem get_counts_single_post_witness :
    (get_counts (fun _ => HttpOutcome.timeout)
        (mkCtx [("authorization", "Bearer abc123")]) {}).2
      = [{ url := api_url, headers := gcHeaders "abc123",
           payload := mkPayload {}, timeout := 30 }] ∧
    headersGet (gcHeaders "abc123") "Authorization"
      = some ("Bearer " ++ "abc123") :=
  get_counts_single_post _ _ _ "abc123" (by rfl) (by decide)

/-- C9: every invocation that reaches the backend and receives an HTTP
response (any status, asking only that a 200 body decodes as JSON)
returns a mapping whose token_used field is `"Bearer "` followed by the
first 8 characters of the caller's token and `"..."`, and whose
request_payload field echoes the full outbound payload. -/
theorem get_counts_response_discloses_token (ra : RequestAccess)
    (args : GCArgs) (t : String) (status : Nat) (text : String)
    (json : Except String JsonVal)
    (hb : bearerTokenGC ra = .ok (some t)) (ht : t ≠ "")
    (hj : status = 200 → ∃ j, json = .ok j) :
    ∃ success data error,
      (get_counts (fun _ => .response status text json) ra args).1
        = .apiResult status success data error (mkPayload args)
            (some ("Bearer " ++ pyTake t 8 ++ "...")) := by
  rw [get_counts_token_path _ ra args t hb ht]
  by_cases hs : status = 200
  · subst hs
    obtain ⟨j, rfl⟩ := hj rfl
    exact ⟨true, some j, none, rfl⟩
  · refine ⟨false, none, some text, ?_⟩
    simp only [handleOutcome]
    rw [if_neg hs]

theorem get_counts_response_discloses_token_witness :
    ∃ success data error,
      (get_counts (fun _ => .response 404 "not found" (.error "x"))
          (mkCtx [("authorization", "Bearer abc123")]) {}).1
        = .apiResult 404 success data error (mkPayload {})
            (some ("Bearer " ++ pyTake "abc123" 8 ++ "...")) :=
  get_counts_response_discloses_token _ {} "abc123" 404 "not found"
    (.error "x") (by rfl) (by decide) (fun h => absurd h (by decide))

/-- C8 (counterexample): the entry point consults no startup
configuration option: the transport argument of `mcp.run` is the
hard-coded `"http"`, so an invocation with no option given does not run
the claimed default `"stdio"`. -/
theorem main_transport_not_stdio :
    mainRunConfig.transport = "http" ∧ ¬ mainRunConfig.transport = "stdio" := by
  decide

/-- C8 (amended): the server entry point always runs with transport
`"http"`, bound to the loopback address 127.0.0.1 on fixed port 8000;
no transport-selection option exists and stdio/sse are never used. -/
theorem main_run_loopback_http :
    mainRunConfig.transport = "http" ∧ mainRunConfig.host = "127.0.0.1" ∧
    mainRunConfig.port = 8000 := by
  decide

end Server
